import Mathlib

/-!
Verification development for the PicoLume receiver firmware.

The definitions below are shallow embeddings of the receiver firmware:

* the current receiver (picolume_receiver.ino, binary show format V3), and
* the superseded legacy receiver (binary show formats V1 and V2).

Conventions of the embedding:

* machine integers are modelled as Nat, with explicit reductions modulo
  2 to the 32 where the C code performs wrapping uint32 arithmetic;
* a file is a list of byte values; a short read is detected by comparing
  the file length against the requested extent, matching the way the
  firmware compares the return value of read against the requested size;
* float arithmetic of the effect renderers is modelled over the rational
  numbers, with C float-to-integer casts modelled as truncation toward
  zero; the C library functions sin and rand, and the NeoPixel helpers
  ColorHSV and gamma32, are abstracted as explicit function parameters,
  since both firmware versions call them with identical argument
  expressions.
-/

/-- Modulus of 32-bit unsigned arithmetic. -/
def u32 : Nat := 4294967296

/-- Reads one byte of a file, defaulting to 0 past the end; every use is
guarded by an explicit length check mirroring the short-read checks of the
firmware. -/
def byteAt (bytes : List Nat) (i : Nat) : Nat := bytes.getD i 0

/-- Little-endian 16-bit read at a byte offset. -/
def le16 (bytes : List Nat) (i : Nat) : Nat :=
  byteAt bytes i + 256 * byteAt bytes (i + 1)

/-- Little-endian 32-bit read at a byte offset. -/
def le32 (bytes : List Nat) (i : Nat) : Nat :=
  byteAt bytes i + 256 * byteAt bytes (i + 1) + 65536 * byteAt bytes (i + 2) +
    16777216 * byteAt bytes (i + 3)

/-- Truncation of a rational toward zero, the semantics of a C cast from a
float to an integer type. -/
def qtrunc (q : ℚ) : Int :=
  if 0 ≤ q then ⌊q⌋ else -⌊-q⌋

/-- Truncation of a nonnegative rational to a Nat, used for casts of values
the code keeps nonnegative. -/
def qtruncNat (q : ℚ) : Nat := (qtrunc q).toNat

-- ====================== DATA STRUCTURES ======================

/-- ShowEvent, the 48-byte V3 event record: start time, duration,
effect kind, speed and width parameter bytes, one reserved byte, two packed
colors and a 7-bucket 32-bit target bitmask. -/
structure ShowEvent where
  startTime : Nat
  duration : Nat
  effectType : Nat
  speed : Nat
  width : Nat
  reserved : Nat
  color : Nat
  color2 : Nat
  targetMask : List Nat
deriving Repr, DecidableEq

/-- PropConfig, the per-prop 8-byte V3 hardware record (3 reserved bytes
are not retained). -/
structure PropConfig where
  ledCount : Nat
  ledType : Nat
  colorOrder : Nat
  brightnessCap : Nat
deriving Repr, DecidableEq

/-- Mutable show-document state of the current receiver, the globals
written by loadShowFromFlash. -/
structure ShowState where
  myConfig : PropConfig
  numLeds : Nat
  showLength : Nat
  showEndTime : Nat
  showSchedule : List ShowEvent
deriving Repr, DecidableEq

/-- Current effect state written by checkSchedule and consumed by
renderFrame. -/
structure EffectState where
  effectType : Nat
  startTime : Nat
  duration : Nat
  color : Nat
  color2 : Nat
  speed : Nat
  width : Nat
deriving Repr, DecidableEq

/-- Radio timecode packet, as laid out in the RadioPacket struct. -/
structure RadioPacket where
  packetCounter : Nat
  masterTime : Nat
  state : Nat
  hopCount : Nat
  sourceID : Nat
deriving Repr, DecidableEq

-- ====================== SCHEDULER ============================

/-- Bitmask test of checkSchedule and loadShowFromFlash: bucket index is
the prop identity minus one divided by 32, bit position is that value
modulo 32. -/
def maskHasProp (propID : Nat) (mask : List Nat) : Bool :=
  Nat.testBit (mask.getD ((propID - 1) / 32) 0) ((propID - 1) % 32)

/-- Candidate test of the scheduler loop, with the wrapping uint32 sum the
code computes for the window upper bound. -/
def eventCandidate (propID t : Nat) (e : ShowEvent) : Bool :=
  decide (e.startTime ≤ t) && decide (t < (e.startTime + e.duration) % u32) &&
    maskHasProp propID e.targetMask

/-- Candidate predicate exactly as the specification words it: the show
time lies in the half-open window from start to start plus duration, and
the bitmask bucket at index prop minus one over 32 has the bit at position
prop minus one modulo 32 set. -/
def specCandidate (propID t : Nat) (e : ShowEvent) : Bool :=
  decide (e.startTime ≤ t ∧ t < e.startTime + e.duration) &&
    Nat.testBit (e.targetMask.getD ((propID - 1) / 32) 0) ((propID - 1) % 32)

/-- Scheduler checkSchedule of the current receiver: with an empty schedule
only the effect type is reset to OFF; otherwise the first candidate in file
order populates the whole effect state, and if no candidate exists the
effect type becomes OFF with the start set to now and the duration to 0. -/
def checkSchedule (propID t : Nat) (events : List ShowEvent)
    (st : EffectState) : EffectState :=
  if events.length = 0 then { st with effectType := 0 }
  else
    match events.find? (eventCandidate propID t) with
    | some e =>
        { effectType := e.effectType, startTime := e.startTime,
          duration := e.duration, color := e.color, color2 := e.color2,
          speed := e.speed, width := e.width }
    | none => { st with effectType := 0, startTime := t, duration := 0 }

-- helper: find? only depends on the predicate values on the list
theorem find?_congr_on {α : Type} (p q : α → Bool) :
    ∀ l : List α, (∀ x ∈ l, p x = q x) → l.find? p = l.find? q := by
  intro l
  induction l with
  | nil => intro _; rfl
  | cons a as ih =>
      intro h
      have ha := h a (List.mem_cons_self a as)
      by_cases hpa : p a = true
      · rw [List.find?_cons_of_pos _ hpa, List.find?_cons_of_pos _ (ha ▸ hpa)]
      · have hpa' : p a = false := Bool.eq_false_iff.mpr hpa
        rw [List.find?_cons_of_neg _ (by simp [hpa']),
          List.find?_cons_of_neg _ (by simp [ha ▸ hpa'])]
        exact ih fun x hx => h x (List.mem_cons_of_mem a hx)

theorem eventCandidate_eq_specCandidate (propID t : Nat) (e : ShowEvent)
    (hwf : e.startTime + e.duration < u32) :
    eventCandidate propID t e = specCandidate propID t e := by
  unfold eventCandidate specCandidate maskHasProp
  rw [Nat.mod_eq_of_lt hwf]
  by_cases h1 : e.startTime ≤ t <;> by_cases h2 : t < e.startTime + e.duration <;>
    simp [h1, h2]

/-- The scheduler selection agrees with the first match of the
specification predicate, provided no event window wraps the uint32 range. -/
theorem checkSchedule_spec (propID t : Nat) (events : List ShowEvent)
    (st : EffectState) (hwf : ∀ e ∈ events, e.startTime + e.duration < u32) :
    (∀ e, events.find? (specCandidate propID t) = some e →
        checkSchedule propID t events st =
          { effectType := e.effectType, startTime := e.startTime,
            duration := e.duration, color := e.color, color2 := e.color2,
            speed := e.speed, width := e.width }) ∧
    (events.find? (specCandidate propID t) = none →
        (checkSchedule propID t events st).effectType = 0) := by
  have hfind : events.find? (eventCandidate propID t) =
      events.find? (specCandidate propID t) :=
    find?_congr_on _ _ events fun e he =>
      eventCandidate_eq_specCandidate propID t e (hwf e he)
  constructor
  · intro e hfound
    have hne : events.length ≠ 0 := by
      intro hlen
      rw [List.length_eq_zero] at hlen
      subst hlen
      simp [List.find?] at hfound
    unfold checkSchedule
    rw [if_neg hne, hfind, hfound]
  · intro hnone
    unfold checkSchedule
    by_cases hlen : events.length = 0
    · rw [if_pos hlen]
    · rw [if_neg hlen, hfind, hnone]

/-- C1: for every prop identity in the supported range and every show
time, checkSchedule selects at most one event, namely the first event in
file order whose half-open window contains the show time and whose target
bitmask has the bit of this prop set, and when no such event exists the
resulting effect type is the explicit OFF state. -/
theorem C1_scheduler_first_match (propID t : Nat) (events : List ShowEvent)
    (st : EffectState) (hprop : 1 ≤ propID ∧ propID ≤ 224)
    (hwf : ∀ e ∈ events, e.startTime + e.duration < u32) :
    (∀ e, events.find? (specCandidate propID t) = some e →
        checkSchedule propID t events st =
          { effectType := e.effectType, startTime := e.startTime,
            duration := e.duration, color := e.color, color2 := e.color2,
            speed := e.speed, width := e.width }) ∧
    (events.find? (specCandidate propID t) = none →
        (checkSchedule propID t events st).effectType = 0) :=
  checkSchedule_spec propID t events st hwf

/-- Demo event for witnesses: targets prop 3 (bit 2 of bucket 0), window
from 1000 to 1500, effect SOLID with color red. -/
def wEvent1 : ShowEvent :=
  { startTime := 1000, duration := 500, effectType := 1, speed := 0,
    width := 0, reserved := 0, color := 16711680, color2 := 0,
    targetMask := [4, 0, 0, 0, 0, 0, 0] }

/-- Demo event overlapping wEvent1 on the same prop, later in file order. -/
def wEvent2 : ShowEvent :=
  { startTime := 1100, duration := 500, effectType := 3, speed := 0,
    width := 0, reserved := 0, color := 255, color2 := 0,
    targetMask := [4, 0, 0, 0, 0, 0, 0] }

/-- All-zero effect state used as the prior state in witnesses. -/
def effectState0 : EffectState :=
  { effectType := 0, startTime := 0, duration := 0, color := 0, color2 := 0,
    speed := 0, width := 0 }

theorem C1_scheduler_first_match_witness :
    checkSchedule 3 1200 [wEvent1, wEvent2] effectState0 =
      { effectType := 1, startTime := 1000, duration := 500,
        color := 16711680, color2 := 0, speed := 0, width := 0 } := by
  have h := (C1_scheduler_first_match 3 1200 [wEvent1, wEvent2] effectState0
    (by decide) (by decide)).1 wEvent1 (by decide)
  simpa [wEvent1] using h

-- ====================== SHOW FILE LOADING ====================

/-- Parses the 28-byte 7-bucket target mask at a byte offset. -/
def parseMask (bytes : List Nat) (i : Nat) : List Nat :=
  [le32 bytes i, le32 bytes (i + 4), le32 bytes (i + 8), le32 bytes (i + 12),
    le32 bytes (i + 16), le32 bytes (i + 20), le32 bytes (i + 24)]

/-- Parses one 48-byte V3 ShowEvent record at a byte offset. -/
def parseShowEvent (bytes : List Nat) (i : Nat) : ShowEvent :=
  { startTime := le32 bytes i, duration := le32 bytes (i + 4),
    effectType := byteAt bytes (i + 8), speed := byteAt bytes (i + 9),
    width := byteAt bytes (i + 10), reserved := byteAt bytes (i + 11),
    color := le32 bytes (i + 12), color2 := le32 bytes (i + 16),
    targetMask := parseMask bytes (i + 20) }

/-- Event-reading loop of the current loadShowFromFlash: reads up to the
requested number of 48-byte records, stops at the first short read, and
folds the show end time of this prop along the way, as the wrapping uint32
maximum of start plus duration over the events whose mask targets the
prop. -/
def readEventsV3 (bytes : List Nat) (propID : Nat) :
    Nat → Nat → Nat → List ShowEvent × Nat
  | _, endAcc, 0 => ([], endAcc)
  | pos, endAcc, n + 1 =>
    if bytes.length < pos + 48 then ([], endAcc)
    else
      let e := parseShowEvent bytes pos
      let endAcc2 :=
        if maskHasProp propID e.targetMask then
          max endAcc ((e.startTime + e.duration) % u32)
        else endAcc
      let rest := readEventsV3 bytes propID (pos + 48) endAcc2 n
      (e :: rest.1, rest.2)

/-- Current receiver loadShowFromFlash as a transformer of the global show
state. The input is the optional content of show.bin; the Bool result is
the return value of the C function. V3 only: a 16-byte header with magic
0x5049434F and version 3, a 224-entry 8-byte PropConfig table at offset 16
of which only the record of this prop is read, and 48-byte events from
offset 1808, clamped to 512 and to the events fully present in the file. -/
def loadShowFromFlash (file : Option (List Nat)) (propID : Nat)
    (st : ShowState) : Bool × ShowState :=
  match file with
  | none => (false, st)
  | some bytes =>
    if bytes.length < 16 then (false, st)
    else if le32 bytes 0 ≠ 0x5049434F then (false, st)
    else if le16 bytes 4 ≠ 3 then (false, st)
    else
      let propConfigOffset := 16 + (propID - 1) * 8
      if bytes.length < propConfigOffset + 8 then (false, st)
      else
        let cfg : PropConfig :=
          { ledCount := le16 bytes propConfigOffset,
            ledType := byteAt bytes (propConfigOffset + 2),
            colorOrder := byteAt bytes (propConfigOffset + 3),
            brightnessCap := byteAt bytes (propConfigOffset + 4) }
        let declared := min (le16 bytes 6) 512
        let events := readEventsV3 bytes propID 1808 0 declared
        (true,
          { myConfig := cfg, numLeds := cfg.ledCount,
            showLength := events.1.length, showEndTime := events.2,
            showSchedule := events.1 })

-- ====================== LEGACY (V1/V2) LOADER ================

/-- Legacy 48-byte event record: no speed and width bytes, three bytes of
padding after the effect type. -/
structure LegacyShowEvent where
  startTime : Nat
  duration : Nat
  effectType : Nat
  color : Nat
  color2 : Nat
  targetMask : List Nat
deriving Repr, DecidableEq

/-- Parses one 48-byte legacy ShowEvent record at a byte offset. -/
def parseLegacyEvent (bytes : List Nat) (i : Nat) : LegacyShowEvent :=
  { startTime := le32 bytes i, duration := le32 bytes (i + 4),
    effectType := byteAt bytes (i + 8), color := le32 bytes (i + 12),
    color2 := le32 bytes (i + 16), targetMask := parseMask bytes (i + 20) }

/-- Mutable show-document state of the legacy receiver. -/
structure LegacyShowState where
  numLeds : Nat
  maxBrightness : Nat
  propLengths : List Nat
  showLength : Nat
  showSchedule : List LegacyShowEvent
deriving Repr, DecidableEq

/-- Event-reading loop of the legacy loader: like the V3 loop but with no
show-end-time bookkeeping. -/
def readEventsLegacy (bytes : List Nat) : Nat → Nat → List LegacyShowEvent
  | _, 0 => []
  | pos, n + 1 =>
    if bytes.length < pos + 48 then []
    else parseLegacyEvent bytes pos :: readEventsLegacy bytes (pos + 48) n

/-- Common tail of the legacy loader after version dispatch: brightness
from header byte 10, event count clamped to 512 and to the events fully
present from the given position; this part never fails. -/
def legacyFinish (bytes : List Nat) (pos numLeds : Nat) (lut : List Nat) :
    Bool × LegacyShowState :=
  let events := readEventsLegacy bytes pos (min (le16 bytes 6) 512)
  (true,
    { numLeds := numLeds, maxBrightness := byteAt bytes 10,
      propLengths := lut, showLength := events.length,
      showSchedule := events })

/-- Legacy receiver loadShowFromFlash: versions 1 and 2 only. V1 applies
the global LED count of header bytes 8 and 9 uniformly, filling the lookup
table with it; V2 skips one padding byte after the 16-byte header (the
read of the padding byte is unchecked in the code, so with a 16-byte file
the position does not advance), reads a 448-byte table of 224 16-bit LED
counts, and resolves the LED count of this prop from it. Every other
version value fails the load. -/
def legacyLoadShowFromFlash (file : Option (List Nat)) (propID : Nat)
    (st : LegacyShowState) : Bool × LegacyShowState :=
  match file with
  | none => (false, st)
  | some bytes =>
    if bytes.length < 16 then (false, st)
    else if le32 bytes 0 ≠ 0x5049434F then (false, st)
    else if le16 bytes 4 = 1 then
      let n := le16 bytes 8
      legacyFinish bytes 16 n (List.replicate 224 n)
    else if le16 bytes 4 = 2 then
      let posAfterPad := if 17 ≤ bytes.length then 17 else 16
      if bytes.length < posAfterPad + 448 then (false, st)
      else
        let lut := (List.range 224).map fun k => le16 bytes (posAfterPad + 2 * k)
        legacyFinish bytes (posAfterPad + 448) (lut.getD (propID - 1) 0) lut
    else (false, st)

-- ====================== RETRY WRAPPER ========================

/-- Default attempt count of loadShowFromFlashWithRetry. -/
def defaultMaxAttempts : Nat := 3

/-- Retry loop body of loadShowFromFlashWithRetry, with the outcome of each
underlying load attempt abstracted as an oracle indexed by the attempt
number. Returns the overall result, the number of attempts performed, and
the number of inter-attempt delays performed (the code delays only after a
failed attempt that is not the last one). -/
def retryGo (oracle : Nat → Bool) (attempt : Nat) : Nat → Bool × Nat × Nat
  | 0 => (false, 0, 0)
  | remaining + 1 =>
    if oracle attempt then (true, 1, 0)
    else
      let r := retryGo oracle (attempt + 1) remaining
      (r.1, r.2.1 + 1, r.2.2 + if remaining = 0 then 0 else 1)

/-- Retry wrapper loadShowFromFlashWithRetry: attempts start at 1. -/
def loadShowFromFlashWithRetry (oracle : Nat → Bool) (maxAttempts : Nat) :
    Bool × Nat × Nat :=
  retryGo oracle 1 maxAttempts

theorem retryGo_spec (oracle : Nat → Bool) :
    ∀ rem a, (retryGo oracle a rem).2.1 ≤ rem ∧
      ((retryGo oracle a rem).1 = true →
        1 ≤ (retryGo oracle a rem).2.1 ∧
        oracle (a + (retryGo oracle a rem).2.1 - 1) = true ∧
        ∀ j, a ≤ j → j < a + (retryGo oracle a rem).2.1 - 1 →
          oracle j = false) ∧
      ((retryGo oracle a rem).1 = false →
        (retryGo oracle a rem).2.1 = rem ∧
        ∀ j, a ≤ j → j < a + rem → oracle j = false) ∧
      (retryGo oracle a rem).2.2 = (retryGo oracle a rem).2.1 - 1 := by
  intro rem
  induction rem with
  | zero =>
      intro a
      refine ⟨Nat.le_refl 0, ?_, ?_, rfl⟩
      · intro h; simp [retryGo] at h
      · intro _; exact ⟨rfl, fun j h1 h2 => absurd h2 (by omega)⟩
  | succ n ih =>
      intro a
      by_cases ha : oracle a = true
      · refine ⟨?_, ?_, ?_, ?_⟩ <;> simp [retryGo, ha]
        · intro j h1 h2; omega
      · have ha' : oracle a = false := Bool.eq_false_iff.mpr ha
        obtain ⟨ih1, ih2, ih3, ih4⟩ := ih (a + 1)
        have hgo1 : (retryGo oracle a (n + 1)).1 =
            (retryGo oracle (a + 1) n).1 := by simp [retryGo, ha']
        have hgo2 : (retryGo oracle a (n + 1)).2.1 =
            (retryGo oracle (a + 1) n).2.1 + 1 := by simp [retryGo, ha']
        have hgo3 : (retryGo oracle a (n + 1)).2.2 =
            (retryGo oracle (a + 1) n).2.2 +
              if n = 0 then 0 else 1 := by simp [retryGo, ha']
        refine ⟨?_, ?_, ?_, ?_⟩
        · rw [hgo2]; omega
        · rw [hgo1, hgo2]
          intro hT
          obtain ⟨k1, k2, k3⟩ := ih2 hT
          refine ⟨by omega, ?_, ?_⟩
          · have heq : a + ((retryGo oracle (a + 1) n).2.1 + 1) - 1 =
                a + 1 + (retryGo oracle (a + 1) n).2.1 - 1 := by omega
            rw [heq]; exact k2
          · intro j hj1 hj2
            rcases Nat.eq_or_lt_of_le hj1 with rfl | hj
            · exact ha'
            · exact k3 j (by omega) (by omega)
        · rw [hgo1, hgo2]
          intro hF
          obtain ⟨k1, k2⟩ := ih3 hF
          refine ⟨by omega, ?_⟩
          intro j hj1 hj2
          rcases Nat.eq_or_lt_of_le hj1 with rfl | hj
          · exact ha'
          · exact k2 j (by omega) (by omega)
        · rw [hgo2, hgo3]
          rcases Nat.eq_zero_or_pos n with rfl | hn
          · simp [retryGo]
          · have hone : 1 ≤ (retryGo oracle (a + 1) n).2.1 := by
              by_cases hres : (retryGo oracle (a + 1) n).1 = true
              · exact (ih2 hres).1
              · have := (ih3 (Bool.eq_false_iff.mpr hres)).1; omega
            rw [ih4, if_neg (by omega : ¬ n = 0)]
            omega

/-- C8: the retry wrapper performs at most the given number of attempts
with a delay between consecutive attempts, returns true at the first
attempt that succeeds, performing no further attempts, and returns false
exactly when every attempt fails; it retries unconditionally. -/
theorem C8_retry_policy (oracle : Nat → Bool) (maxAttempts : Nat) :
    (loadShowFromFlashWithRetry oracle maxAttempts).2.1 ≤ maxAttempts ∧
    ((loadShowFromFlashWithRetry oracle maxAttempts).1 = true →
      oracle (loadShowFromFlashWithRetry oracle maxAttempts).2.1 = true ∧
      ∀ j, 1 ≤ j → j < (loadShowFromFlashWithRetry oracle maxAttempts).2.1 →
        oracle j = false) ∧
    ((loadShowFromFlashWithRetry oracle maxAttempts).1 = false ↔
      ∀ j, 1 ≤ j → j ≤ maxAttempts → oracle j = false) ∧
    (loadShowFromFlashWithRetry oracle maxAttempts).2.2 =
      (loadShowFromFlashWithRetry oracle maxAttempts).2.1 - 1 := by
  obtain ⟨h1, h2, h3, h4⟩ := retryGo_spec oracle maxAttempts 1
  unfold loadShowFromFlashWithRetry
  refine ⟨h1, ?_, ?_, h4⟩
  · intro hT
    obtain ⟨k1, k2, k3⟩ := h2 hT
    constructor
    · have : 1 + (retryGo oracle 1 maxAttempts).2.1 - 1 =
        (retryGo oracle 1 maxAttempts).2.1 := by omega
      rw [this] at k2; exact k2
    · intro j hj1 hj2; exact k3 j hj1 (by omega)
  · constructor
    · intro hF
      obtain ⟨k1, k2⟩ := h3 hF
      intro j hj1 hj2; exact k2 j hj1 (by omega)
    · intro hall
      by_cases hres : (retryGo oracle 1 maxAttempts).1 = true
      · obtain ⟨k1, k2, k3⟩ := h2 hres
        exfalso
        have hcontra := hall (1 + (retryGo oracle 1 maxAttempts).2.1 - 1)
          (by omega) (by omega)
        rw [k2] at hcontra
        simp at hcontra
      · exact Bool.eq_false_iff.mpr hres

theorem C8_retry_policy_witness :
    loadShowFromFlashWithRetry (fun k => decide (k = 2)) defaultMaxAttempts =
      (true, 2, 1) ∧
    (fun k => decide (k = 2)) (loadShowFromFlashWithRetry
      (fun k => decide (k = 2)) defaultMaxAttempts).2.1 = true := by
  have h := C8_retry_policy (fun k => decide (k = 2)) defaultMaxAttempts
  refine ⟨by decide, (h.2.1 (by decide)).1⟩

-- ====================== COLOR HELPERS ========================

/-- NeoPixel Color for 3-channel strips: red in bits 16 to 23, green in
bits 8 to 15, blue in bits 0 to 7, combined by bitwise or of shifts as in
the library source. -/
def stripColor3 (r g b : Nat) : Nat := (r <<< 16) ||| (g <<< 8) ||| b

/-- NeoPixel Color for 4-channel strips: white in bits 24 to 31. -/
def stripColor4 (r g b w : Nat) : Nat :=
  (w <<< 24) ||| (r <<< 16) ||| (g <<< 8) ||| b

/-- Function makeColor of the current receiver: on a non-RGBW strip the
three channels pass through; on an RGBW strip the white channel is the
minimum of the three and is subtracted from each. -/
def makeColor (isRGBW : Bool) (r g b : Nat) : Nat :=
  if !isRGBW then stripColor3 r g b
  else
    let w := min r (min g b)
    stripColor4 (r - w) (g - w) (b - w) w

/-- Function makeColorFromPacked: unpacks a 24-bit color and applies
makeColor. -/
def makeColorFromPacked (isRGBW : Bool) (rgb : Nat) : Nat :=
  makeColor isRGBW ((rgb >>> 16) &&& 255) ((rgb >>> 8) &&& 255) (rgb &&& 255)

-- bitwise or of a shifted value and a small value is their sum
theorem shiftLeft_lor_eq_add (a b k : Nat) (hb : b < 2 ^ k) :
    (a <<< k) ||| b = a * 2 ^ k + b := by
  apply Nat.eq_of_testBit_eq
  intro i
  rw [Nat.testBit_lor, Nat.testBit_shiftLeft]
  by_cases hik : k ≤ i
  · have hbi : b.testBit i = false :=
      Nat.testBit_lt_two_pow
        (lt_of_lt_of_le hb (Nat.pow_le_pow_right (by norm_num) hik))
    rw [hbi, Bool.or_false]
    simp only [ge_iff_le, hik, decide_True, Bool.true_and]
    rw [Nat.testBit_to_div_mod, Nat.testBit_to_div_mod]
    have h1 : (a * 2 ^ k + b) / 2 ^ i = a / 2 ^ (i - k) := by
      have hk : (2 : Nat) ^ i = 2 ^ k * 2 ^ (i - k) := by
        rw [← pow_add]; congr 1; omega
      rw [hk, ← Nat.div_div_eq_div_mul, mul_comm a (2 ^ k),
        Nat.mul_add_div (Nat.pos_pow_of_pos k (by norm_num)),
        Nat.div_eq_of_lt hb, Nat.add_zero]
    rw [h1]
  · have hik' : i < k := by omega
    have hd : decide (i ≥ k) = false := decide_eq_false (by omega)
    rw [hd, Bool.false_and, Bool.false_or]
    rw [Nat.testBit_to_div_mod, Nat.testBit_to_div_mod]
    have hsplit : a * 2 ^ k = 2 ^ i * (a * 2 ^ (k - i)) := by
      rw [← mul_assoc, mul_comm (2 ^ i) a, mul_assoc, ← pow_add]
      congr 2; omega
    have h1 : (a * 2 ^ k + b) / 2 ^ i = b / 2 ^ i + a * 2 ^ (k - i) := by
      rw [hsplit, Nat.mul_add_div (Nat.pos_pow_of_pos i (by norm_num))]
      omega
    have h2 : a * 2 ^ (k - i) = a * 2 ^ (k - i - 1) * 2 := by
      rw [mul_assoc, ← pow_succ]
      congr 2; omega
    have h3 : (a * 2 ^ k + b) / 2 ^ i % 2 = b / 2 ^ i % 2 := by
      rw [h1, h2, Nat.add_mul_mod_self_right]
    rw [h3]

theorem stripColor3_eq_add (r g b : Nat) (hg : g ≤ 255) (hb : b ≤ 255) :
    stripColor3 r g b = r * 65536 + g * 256 + b := by
  unfold stripColor3
  rw [Nat.lor_assoc,
    shiftLeft_lor_eq_add g b 8 (by norm_num; omega),
    shiftLeft_lor_eq_add r (g * 2 ^ 8 + b) 16 (by norm_num; omega)]
  norm_num; ring

theorem stripColor4_eq_add (r g b w : Nat) (hr : r ≤ 255) (hg : g ≤ 255)
    (hb : b ≤ 255) :
    stripColor4 r g b w = w * 16777216 + r * 65536 + g * 256 + b := by
  unfold stripColor4
  rw [Nat.lor_assoc, Nat.lor_assoc,
    shiftLeft_lor_eq_add g b 8 (by norm_num; omega),
    shiftLeft_lor_eq_add r (g * 2 ^ 8 + b) 16 (by norm_num; omega),
    shiftLeft_lor_eq_add w (r * 2 ^ 16 + (g * 2 ^ 8 + b)) 24
      (by norm_num; omega)]
  norm_num; ring

/-- C9: on a white-capable chipset, makeColor extracts the white channel as
the minimum of the three inputs, packing white minus subtracted channels
into the four channel bytes; on any other chipset the three channels pass
through unchanged. -/
theorem C9_makeColor_rgbw (r g b : Nat) (hr : r ≤ 255) (hg : g ≤ 255)
    (hb : b ≤ 255) :
    makeColor true r g b =
      (min r (min g b)) * 16777216 + (r - min r (min g b)) * 65536 +
        (g - min r (min g b)) * 256 + (b - min r (min g b)) ∧
    makeColor false r g b = r * 65536 + g * 256 + b := by
  constructor
  · unfold makeColor
    simp only [Bool.not_true, Bool.false_eq_true, if_false]
    exact stripColor4_eq_add _ _ _ _ (by omega) (by omega) (by omega)
  · unfold makeColor
    simp only [Bool.not_false, if_true]
    exact stripColor3_eq_add r g b hg hb

theorem C9_makeColor_rgbw_witness :
    makeColor true 200 100 50 = 50 * 16777216 + 150 * 65536 + 50 * 256 + 0 ∧
    makeColor false 200 100 50 = 200 * 65536 + 100 * 256 + 50 := by
  have h := C9_makeColor_rgbw 200 100 50 (by decide) (by decide) (by decide)
  have h1 := h.1
  have h2 := h.2
  norm_num at h1 h2 ⊢
  exact ⟨h1, h2⟩

-- ====================== LOAD ATOMICITY =======================

/-- C10: a failed load is atomic: whenever loadShowFromFlash returns false,
the show state is exactly the state before the call; every global write
occurs after the last failure-return point. -/
theorem C10_load_failure_atomic (file : Option (List Nat)) (propID : Nat)
    (st : ShowState) (h : (loadShowFromFlash file propID st).1 = false) :
    (loadShowFromFlash file propID st).2 = st := by
  cases file with
  | none => rfl
  | some bytes =>
    by_cases h1 : bytes.length < 16
    · simp [loadShowFromFlash, h1]
    · by_cases h2 : le32 bytes 0 = 0x5049434F
      · by_cases h3 : le16 bytes 4 = 3
        · by_cases h4 : bytes.length < 16 + (propID - 1) * 8 + 8
          · simp [loadShowFromFlash, h1, h2, h3, h4]
          · exfalso
            simp [loadShowFromFlash, h1, h2, h3, h4] at h
        · simp [loadShowFromFlash, h1, h2, h3]
      · simp [loadShowFromFlash, h1, h2]

/-- Demo prior show state for witnesses. -/
def wShowState : ShowState :=
  { myConfig := { ledCount := 9, ledType := 2, colorOrder := 1, brightnessCap := 7 },
    numLeds := 9, showLength := 4, showEndTime := 77,
    showSchedule := [wEvent1] }

theorem C10_load_failure_atomic_witness :
    (loadShowFromFlash (some [80, 73, 67, 79]) 1 wShowState).2 = wShowState :=
  C10_load_failure_atomic (some [80, 73, 67, 79]) 1 wShowState (by decide)

-- ====================== LOAD CHARACTERIZATION ================

theorem readEventsV3_length (bytes : List Nat) (propID : Nat) :
    ∀ n pos acc, (readEventsV3 bytes propID pos acc n).1.length =
      min n ((bytes.length - pos) / 48) := by
  intro n
  induction n with
  | zero => intro pos acc; simp [readEventsV3]
  | succ m ih =>
      intro pos acc
      by_cases hb : bytes.length < pos + 48
      · have hz : (bytes.length - pos) / 48 = 0 := Nat.div_eq_of_lt (by omega)
        simp [readEventsV3, hb, hz]
      · have h48 : bytes.length - pos = (bytes.length - (pos + 48)) + 48 := by
          omega
        simp only [readEventsV3, if_neg hb, List.length_cons]
        rw [ih (pos + 48) _, h48, Nat.add_div_right _ (by norm_num)]
        omega

theorem loadShowFromFlash_true_iff (bytes : List Nat) (propID : Nat)
    (st : ShowState) :
    (loadShowFromFlash (some bytes) propID st).1 = true ↔
      (16 ≤ bytes.length ∧ le32 bytes 0 = 0x5049434F ∧ le16 bytes 4 = 3 ∧
        16 + (propID - 1) * 8 + 8 ≤ bytes.length) := by
  constructor
  · intro h
    by_cases h1 : bytes.length < 16
    · exfalso; simp [loadShowFromFlash, h1] at h
    · by_cases h2 : le32 bytes 0 = 0x5049434F
      · by_cases h3 : le16 bytes 4 = 3
        · by_cases h4 : bytes.length < 16 + (propID - 1) * 8 + 8
          · exfalso; simp [loadShowFromFlash, h1, h2, h3, h4] at h
          · exact ⟨by omega, h2, h3, by omega⟩
        · exfalso; simp [loadShowFromFlash, h1, h2, h3] at h
      · exfalso; simp [loadShowFromFlash, h1, h2] at h
  · rintro ⟨k1, k2, k3, k4⟩
    simp [loadShowFromFlash, k2, k3, not_lt.mpr k1, not_lt.mpr k4]

theorem loadShowFromFlash_success_fields (bytes : List Nat) (propID : Nat)
    (st : ShowState) (h1 : 16 ≤ bytes.length)
    (h2 : le32 bytes 0 = 0x5049434F) (h3 : le16 bytes 4 = 3)
    (h4 : 16 + (propID - 1) * 8 + 8 ≤ bytes.length) :
    (loadShowFromFlash (some bytes) propID st).2 =
      { myConfig :=
          { ledCount := le16 bytes (16 + (propID - 1) * 8),
            ledType := byteAt bytes (16 + (propID - 1) * 8 + 2),
            colorOrder := byteAt bytes (16 + (propID - 1) * 8 + 3),
            brightnessCap := byteAt bytes (16 + (propID - 1) * 8 + 4) },
        numLeds := le16 bytes (16 + (propID - 1) * 8),
        showLength :=
          (readEventsV3 bytes propID 1808 0 (min (le16 bytes 6) 512)).1.length,
        showEndTime :=
          (readEventsV3 bytes propID 1808 0 (min (le16 bytes 6) 512)).2,
        showSchedule :=
          (readEventsV3 bytes propID 1808 0 (min (le16 bytes 6) 512)).1 } := by
  simp [loadShowFromFlash, not_lt.mpr h1, h2, h3, not_lt.mpr h4]

/-- C7: the current load fails exactly when the file is absent, the header
read is short, the magic differs, the version is unsupported, or the
PropConfig record read is short; a short event read does not fail the load,
the usable event count is instead clamped to the events fully present. -/
theorem C7_load_failure_iff (file : Option (List Nat)) (propID : Nat)
    (st : ShowState) :
    ((loadShowFromFlash file propID st).1 = false ↔
      (file = none ∨ ∃ bytes, file = some bytes ∧
        (bytes.length < 16 ∨ le32 bytes 0 ≠ 0x5049434F ∨ le16 bytes 4 ≠ 3 ∨
          bytes.length < 16 + (propID - 1) * 8 + 8))) ∧
    (∀ bs, file = some bs → (loadShowFromFlash file propID st).1 = true →
      (loadShowFromFlash file propID st).2.showLength =
        min (min (le16 bs 6) 512) ((bs.length - 1808) / 48)) := by
  cases file with
  | none =>
      refine ⟨⟨fun _ => Or.inl rfl, fun _ => rfl⟩, ?_⟩
      intro bs hbs; cases hbs
  | some bytes =>
      constructor
      · rw [← Bool.not_eq_true, loadShowFromFlash_true_iff bytes propID st]
        constructor
        · intro h
          refine Or.inr ⟨bytes, rfl, ?_⟩
          by_cases h1 : bytes.length < 16
          · exact Or.inl h1
          · by_cases h2 : le32 bytes 0 = 0x5049434F
            · by_cases h3 : le16 bytes 4 = 3
              · refine Or.inr (Or.inr (Or.inr ?_))
                by_cases h4 : bytes.length < 16 + (propID - 1) * 8 + 8
                · exact h4
                · exact absurd ⟨by omega, h2, h3, by omega⟩ h
              · exact Or.inr (Or.inr (Or.inl h3))
            · exact Or.inr (Or.inl h2)
        · rintro (h | ⟨bs, heq, hcase⟩) h'
          · cases h
          · obtain rfl : bs = bytes := (Option.some.inj heq).symm
            obtain ⟨k1, k2, k3, k4⟩ := h'
            rcases hcase with hc | hc | hc | hc
            · omega
            · exact hc k2
            · exact hc k3
            · omega
      · intro bs hbs htrue
        obtain rfl : bs = bytes := (Option.some.inj hbs).symm
        rw [loadShowFromFlash_true_iff bs propID st] at htrue
        obtain ⟨k1, k2, k3, k4⟩ := htrue
        rw [loadShowFromFlash_success_fields bs propID st k1 k2 k3 k4]
        exact readEventsV3_length bs propID (min (le16 bs 6) 512) 1808 0

/-- Demo V3 show file of 24 bytes: valid header declaring 5 events, one
PropConfig record of 5 LEDs for prop 1, and no event bytes at all, so every
declared event read is short and the usable count clamps to 0. -/
def wFileV3 : List Nat :=
  [79, 67, 73, 80, 3, 0, 5, 0] ++ List.replicate 8 0 ++
    [5, 0, 0, 0, 255, 0, 0, 0]

set_option maxRecDepth 4000 in
theorem C7_load_failure_iff_witness :
    (loadShowFromFlash (some wFileV3) 1 wShowState).1 = true ∧
    (loadShowFromFlash (some wFileV3) 1 wShowState).2.showLength = 0 := by
  have h := (C7_load_failure_iff (some wFileV3) 1 wShowState).2 wFileV3 rfl
    (by decide)
  refine ⟨by decide, ?_⟩
  rw [h]
  decide

theorem legacyLoadShowFromFlash_true_iff (bytes : List Nat) (propID : Nat)
    (st : LegacyShowState) :
    (legacyLoadShowFromFlash (some bytes) propID st).1 = true ↔
      (16 ≤ bytes.length ∧ le32 bytes 0 = 0x5049434F ∧
        (le16 bytes 4 = 1 ∨ (le16 bytes 4 = 2 ∧ 465 ≤ bytes.length))) := by
  constructor
  · intro h
    by_cases h1 : bytes.length < 16
    · exfalso; simp [legacyLoadShowFromFlash, h1] at h
    · by_cases h2 : le32 bytes 0 = 0x5049434F
      · by_cases h3 : le16 bytes 4 = 1
        · exact ⟨by omega, h2, Or.inl h3⟩
        · by_cases h4 : le16 bytes 4 = 2
          · by_cases h5 : 465 ≤ bytes.length
            · exact ⟨by omega, h2, Or.inr ⟨h4, h5⟩⟩
            · exfalso
              by_cases h6 : 17 ≤ bytes.length
              · simp [legacyLoadShowFromFlash, h1, h2, h3, h4, h6,
                  show bytes.length < 17 + 448 by omega] at h
              · simp [legacyLoadShowFromFlash, h1, h2, h3, h4, h6,
                  show bytes.length < 16 + 448 by omega] at h
          · exfalso; simp [legacyLoadShowFromFlash, h1, h2, h3, h4] at h
      · exfalso; simp [legacyLoadShowFromFlash, h1, h2] at h
  · rintro ⟨k1, k2, k3 | ⟨k3, k5⟩⟩
    · simp [legacyLoadShowFromFlash, not_lt.mpr k1, k2, k3, legacyFinish]
    · have k6 : 17 ≤ bytes.length := by omega
      have k7 : ¬ le16 bytes 4 = 1 := by omega
      simp [legacyLoadShowFromFlash, not_lt.mpr k1, k2, k7, k3, k6,
        legacyFinish, show ¬ bytes.length < 17 + 448 by omega]

theorem getD_range_map (f : Nat → Nat) (n i : Nat) (h : i < n) :
    ((List.range n).map f).getD i 0 = f i := by
  rw [List.getD_eq_getElem?_getD, List.getElem?_map, List.getElem?_range h]
  rfl

theorem legacyLoad_v1_fields (bytes : List Nat) (propID : Nat)
    (st : LegacyShowState) (k1 : 16 ≤ bytes.length)
    (k2 : le32 bytes 0 = 0x5049434F) (k3 : le16 bytes 4 = 1) :
    (legacyLoadShowFromFlash (some bytes) propID st).2.numLeds =
        le16 bytes 8 ∧
    (legacyLoadShowFromFlash (some bytes) propID st).2.propLengths =
        List.replicate 224 (le16 bytes 8) := by
  simp [legacyLoadShowFromFlash, not_lt.mpr k1, k2, k3, legacyFinish]

theorem legacyLoad_v2_fields (bytes : List Nat) (propID : Nat)
    (st : LegacyShowState) (hp1 : 1 ≤ propID) (hp2 : propID ≤ 224)
    (k1 : 465 ≤ bytes.length) (k2 : le32 bytes 0 = 0x5049434F)
    (k3 : le16 bytes 4 = 2) :
    (legacyLoadShowFromFlash (some bytes) propID st).2.numLeds =
      le16 bytes (17 + 2 * (propID - 1)) := by
  have k6 : 17 ≤ bytes.length := by omega
  have k7 : ¬ le16 bytes 4 = 1 := by omega
  have k8 : ¬ bytes.length < 16 := by omega
  simp only [legacyLoadShowFromFlash, if_neg k8, if_neg (not_ne_iff.mpr k2),
    if_neg k7, if_pos k3, if_pos k6,
    if_neg (show ¬ bytes.length < 17 + 448 by omega), legacyFinish]
  exact getD_range_map (fun k => le16 bytes (17 + 2 * k)) 224 (propID - 1)
    (by omega)

/-- C2 (amended): the current receiver load accepts only format version 3,
reading the PropConfig record of this prop, and fails for every other
version value including 1 and 2; versions 1 (the global LED count of the
header applied uniformly, filling the lookup table) and 2 (a per-prop
16-bit LED-count-only table following one padding byte, from which the LED
count of this prop is resolved) are accepted only by the superseded legacy
receiver loader, which in turn fails for every version other than 1
and 2. -/
theorem C2_version_dispatch :
    (∀ bytes propID st,
      (loadShowFromFlash (some bytes) propID st).1 = true →
        le16 bytes 4 = 3) ∧
    (∀ bytes propID st, 16 ≤ bytes.length →
      le32 bytes 0 = 0x5049434F → le16 bytes 4 = 3 →
      16 + (propID - 1) * 8 + 8 ≤ bytes.length →
      (loadShowFromFlash (some bytes) propID st).1 = true ∧
      (loadShowFromFlash (some bytes) propID st).2.numLeds =
        le16 bytes (16 + (propID - 1) * 8)) ∧
    (∀ bytes propID st,
      (legacyLoadShowFromFlash (some bytes) propID st).1 = true →
        le16 bytes 4 = 1 ∨ le16 bytes 4 = 2) ∧
    (∀ bytes propID st, 16 ≤ bytes.length →
      le32 bytes 0 = 0x5049434F → le16 bytes 4 = 1 →
      (legacyLoadShowFromFlash (some bytes) propID st).1 = true ∧
      (legacyLoadShowFromFlash (some bytes) propID st).2.numLeds =
          le16 bytes 8 ∧
      (legacyLoadShowFromFlash (some bytes) propID st).2.propLengths =
          List.replicate 224 (le16 bytes 8)) ∧
    (∀ bytes propID st, 1 ≤ propID → propID ≤ 224 → 465 ≤ bytes.length →
      le32 bytes 0 = 0x5049434F → le16 bytes 4 = 2 →
      (legacyLoadShowFromFlash (some bytes) propID st).1 = true ∧
      (legacyLoadShowFromFlash (some bytes) propID st).2.numLeds =
        le16 bytes (17 + 2 * (propID - 1))) := by
  refine ⟨?_, ?_, ?_, ?_, ?_⟩
  · intro bytes propID st h
    exact ((loadShowFromFlash_true_iff bytes propID st).mp h).2.2.1
  · intro bytes propID st k1 k2 k3 k4
    have hT := (loadShowFromFlash_true_iff bytes propID st).mpr ⟨k1, k2, k3, k4⟩
    refine ⟨hT, ?_⟩
    rw [loadShowFromFlash_success_fields bytes propID st k1 k2 k3 k4]
  · intro bytes propID st h
    rcases ((legacyLoadShowFromFlash_true_iff bytes propID st).mp h).2.2 with
      hv | ⟨hv, _⟩
    · exact Or.inl hv
    · exact Or.inr hv
  · intro bytes propID st k1 k2 k3
    refine ⟨(legacyLoadShowFromFlash_true_iff bytes propID st).mpr
      ⟨k1, k2, Or.inl k3⟩, legacyLoad_v1_fields bytes propID st k1 k2 k3⟩
  · intro bytes propID st hp1 hp2 k1 k2 k3
    refine ⟨(legacyLoadShowFromFlash_true_iff bytes propID st).mpr
      ⟨by omega, k2, Or.inr ⟨k3, k1⟩⟩,
      legacyLoad_v2_fields bytes propID st hp1 hp2 k1 k2 k3⟩

/-- Demo legacy show state for witnesses. -/
def wLegacyState : LegacyShowState :=
  { numLeds := 164, maxBrightness := 255,
    propLengths := List.replicate 224 164, showLength := 0,
    showSchedule := [] }

/-- Demo version-1 show file: valid magic, version 1, zero events, global
LED count 200, brightness 255. -/
def wFileV1 : List Nat :=
  [79, 67, 73, 80, 1, 0, 0, 0, 200, 0, 255, 0, 0, 0, 0, 0]

/-- Counterexample to C2 as stated: the load operation of the current
receiver fails on a well-formed version-1 file (the same file the legacy
loader accepts), so the Show Store does not accept versions 1 and 2. -/
theorem C2_version_dispatch_counterexample :
    (loadShowFromFlash (some wFileV1) 1 wShowState).1 = false ∧
    (legacyLoadShowFromFlash (some wFileV1) 1 wLegacyState).1 = true := by
  constructor <;> decide

/-- Demo version-2 show file of 465 bytes: one padding byte after the
header, then a 448-byte LED-count table whose entry for prop 5 (table
offset 8, absolute offset 25) is 200. -/
def wFileV2 : List Nat :=
  [79, 67, 73, 80, 2, 0, 0, 0, 164, 0, 200, 0, 0, 0, 0, 0] ++ [0] ++
    (List.replicate 8 0 ++ [200, 0] ++ List.replicate 438 0)

set_option maxRecDepth 8000 in
theorem C2_version_dispatch_witness :
    (legacyLoadShowFromFlash (some wFileV2) 5 wLegacyState).1 = true ∧
    (legacyLoadShowFromFlash (some wFileV2) 5 wLegacyState).2.numLeds = 200 := by
  have h := C2_version_dispatch.2.2.2.2 wFileV2 5 wLegacyState (by decide)
    (by decide) (by decide) (by decide) (by decide)
  refine ⟨h.1, ?_⟩
  rw [h.2]
  decide

-- ====================== EFFECT RENDERERS =====================

/-- External library functions the renderers call: sinQ models the C
library sin over the rational model of floats; randQ models the value of
the k-th rand() call after srand(seed); colorHSV and gamma32 model the
NeoPixel helpers on 16-bit hues and packed colors. Both firmware versions
invoke these with identical argument expressions, so equivalence theorems
quantify over them. -/
structure LibFuns where
  sinQ : ℚ → ℚ
  randQ : Nat → Nat → Nat
  colorHSV : Nat → Nat
  gamma32 : Nat → Nat

/-- Concrete library instance for witnesses and counterexamples. -/
def lib0 : LibFuns :=
  { sinQ := fun _ => 0, randQ := fun _ _ => 0, colorHSV := fun _ => 0,
    gamma32 := fun c => c }

/-- Conversion of a float value to uint8, with wrapping chosen as the
defined model of the out-of-range cast. -/
def u8cast (q : ℚ) : Nat := (qtrunc q).toNat % 256

/-- Function dimColor, identical in both firmware versions: scales the
three channels of a packed color by a brightness factor, with early
returns for factors at or below 0 and at or above 1, truncating each
scaled channel toward zero. -/
def dimColor (color : Nat) (brightness : ℚ) : Nat :=
  if brightness ≤ 0 then 0
  else if 1 ≤ brightness then color
  else
    stripColor3 (qtruncNat ((((color >>> 16) &&& 255 : Nat) : ℚ) * brightness))
      (qtruncNat ((((color >>> 8) &&& 255 : Nat) : ℚ) * brightness))
      (qtruncNat (((color &&& 255 : Nat) : ℚ) * brightness))

/-- Renderer of SOLID: fill with the color. -/
def renderSolid (n c : Nat) : List Nat := List.replicate n c

/-- Renderer of CAMERA_FLASH: white for the first 50 ms of every 500 ms,
black otherwise; the color parameter is unused as in the source. -/
def renderCameraFlash (isRGBW : Bool) (n t c : Nat) : List Nat :=
  if t % 500 < 50 then List.replicate n (makeColor isRGBW 255 255 255)
  else List.replicate n 0

/-- Renderer of STROBE: hard toggle every 33 ms. -/
def renderStrobe (n t c : Nat) : List Nat :=
  if (t / 33) % 2 = 0 then List.replicate n c else List.replicate n 0

/-- Renderer of RAINBOW_CHASE of the current firmware: a speed byte of 0
maps to speed 1 giving the 2000 ms legacy period; the hue offset is the
wrapping uint32 product of time and 65536 divided by the period, reduced
to 16 bits. -/
def renderRainbowChaseShow (lib : LibFuns) (speedByte n t : Nat) : List Nat :=
  let speed : ℚ := if speedByte = 0 then 1 else (speedByte : ℚ) / 50
  let period0 : Nat := qtruncNat (2000 / speed)
  let period : Nat := if period0 = 0 then 1 else period0
  let hueOffset : Nat := (t * 65536 % u32 / period) % 65536
  (List.range n).map fun i =>
    lib.gamma32 (lib.colorHSV ((hueOffset + i * 65536 / n) % 65536))

/-- Renderer of RAINBOW_HOLD: static per-pixel hue gradient. -/
def renderRainbowHold (lib : LibFuns) (n : Nat) : List Nat :=
  (List.range n).map fun i => lib.gamma32 (lib.colorHSV ((i * 65536 / n) % 65536))

/-- Renderer of WIPE: progressive fill proportional to elapsed over
duration, clamped at 1 (rational division by a zero duration yields 0 in
this model). -/
def renderWipe (n t dur c : Nat) : List Nat :=
  let progress0 : ℚ := (t : ℚ) / (dur : ℚ)
  let progress : ℚ := if 1 < progress0 then 1 else progress0
  let litPixels : Int := qtrunc (progress * n)
  (List.range n).map fun (i : Nat) => if (i : Int) < litPixels then c else 0

/-- Pixel loop of CHASE, identical in both firmware versions: clear, then
light the band of pixels within the band width of the center. -/
def chaseBuf (center bandWidth : Int) (n c : Nat) : List Nat :=
  (List.range n).map fun (i : Nat) =>
    if |(i : Int) - center| < bandWidth then c else 0

/-- Renderer of CHASE of the current firmware: a speed byte of 0 maps to
speed 2, a width byte of 0 to a band fraction of one tenth; the band width is
clamped to at least one pixel. -/
def renderChase (speedByte widthByte n t c : Nat) : List Nat :=
  let speed : ℚ := if speedByte = 0 then 2 else (speedByte : ℚ) / 50
  let widthRatio : ℚ := if widthByte = 0 then 1 / 10 else (widthByte : ℚ) / 255
  let effectiveTime : ℚ := (t : ℚ) / 1000 * speed
  let posInCycle : ℚ := effectiveTime - ⌊effectiveTime⌋
  chaseBuf (qtrunc (posInCycle * n)) (max 1 (qtrunc ((n : ℚ) * widthRatio))) n c

/-- Pixel loop of SCANNER, identical in both firmware versions: intensity
falls off linearly with the distance from the center up to the limit. -/
def scannerBuf (center : Int) (distLimit : ℚ) (n c : Nat) : List Nat :=
  (List.range n).map fun (i : Nat) =>
    let dist : ℚ := |(i : ℚ) - (center : ℚ)|
    if dist < distLimit then dimColor c (1 - dist / distLimit) else 0

/-- Renderer of SCANNER of the current firmware: sine-positioned window,
intensity falling off linearly up to a distance limit of at least 2,
derived from the width byte (a width byte of 0 maps to the fraction one tenth,
hence limit 5). -/
def renderScanner (lib : LibFuns) (speedByte widthByte n t c : Nat) :
    List Nat :=
  let speed : ℚ := if speedByte = 0 then 2 else (speedByte : ℚ) / 50
  let tQ : ℚ := (t : ℚ) / 1000 * speed
  let pos : ℚ := (lib.sinQ tQ + 1) / 2
  let widthRatio : ℚ := if widthByte = 0 then 1 / 10 else (widthByte : ℚ) / 255
  scannerBuf (qtrunc (pos * ((n - 1 : Nat) : ℚ))) (max 2 ( widthRatio * 50)) n c

/-- Pixel loop of METEOR, identical in both firmware versions: the head
pixel fully lit, the tail behind it decaying linearly. -/
def meteorBuf (head tailLen : Int) (n c : Nat) : List Nat :=
  (List.range n).map fun (i : Nat) =>
    if (i : Int) ≤ head ∧ head - tailLen < (i : Int) then
      dimColor c (1 - ((head : ℚ) - (i : ℚ)) / (tailLen : ℚ))
    else 0

/-- Renderer of METEOR of the current firmware: moving head with a
linearly decaying tail whose length comes from the width byte (a width
byte of 0 maps to the fraction 33 hundredths), clamped to at least one pixel. -/
def renderMeteor (speedByte widthByte n t c : Nat) : List Nat :=
  let speed : ℚ := if speedByte = 0 then 2 else (speedByte : ℚ) / 50
  let effectiveTime : ℚ := (t : ℚ) / 1000 * speed
  let tFrac : ℚ := effectiveTime - ⌊effectiveTime⌋
  let widthRatio : ℚ := if widthByte = 0 then 33 / 100 else (widthByte : ℚ) / 255
  meteorBuf (qtrunc (tFrac * n)) (max 1 (qtrunc ((n : ℚ) * widthRatio))) n c

/-- Renderer of BREATHE: sinusoidal brightness envelope. -/
def renderBreathe (lib : LibFuns) (speedByte n t c : Nat) : List Nat :=
  let speed : ℚ := if speedByte = 0 then 2 else (speedByte : ℚ) / 50
  let tQ : ℚ := (t : ℚ) / 1000 * speed
  let b : ℚ := (lib.sinQ (tQ * (314159 / 100000)) + 1) / 2
  List.replicate n (dimColor c b)

/-- Renderer of HEARTBEAT: two-lobe pulse within each 1 second cycle. -/
def renderHeartbeat (lib : LibFuns) (n t c : Nat) : List Nat :=
  let tQ : ℚ := ((t % 1000 : Nat) : ℚ) / 1000
  let brightness : ℚ :=
    if tQ < 15 / 100 then lib.sinQ (tQ * (314159 / 100000) / (15 / 100))
    else if 25 / 100 < tQ ∧ tQ < 45 / 100 then
      lib.sinQ ((tQ - 25 / 100) * (314159 / 100000) / (2 / 10)) * (6 / 10)
    else 0
  List.replicate n (dimColor c brightness)

/-- Renderer of SPARKLE: dim base with random pixels forced white, the
random stream reseeded from the elapsed time every 50 ms. -/
def renderSparkle (lib : LibFuns) (isRGBW : Bool) (n t c : Nat) : List Nat :=
  let base := dimColor c (2 / 10)
  let sparkleWhite := makeColor isRGBW 255 255 255
  (List.range n).map fun i =>
    if 90 < lib.randQ (t / 50) i % 100 then sparkleWhite else base

/-- Renderer of FIRE: per-pixel random choice among red, orange and
yellow, reseeded every 80 ms. -/
def renderFire (lib : LibFuns) (isRGBW : Bool) (n t : Nat) : List Nat :=
  let fireRed := makeColor isRGBW 255 0 0
  let fireYellow := makeColor isRGBW 255 255 0
  let fireOrange := makeColor isRGBW 255 80 0
  (List.range n).map fun i =>
    let r := lib.randQ (t / 80) i % 100
    if 80 < r then fireYellow else if 50 < r then fireOrange else fireRed

/-- Renderer of ENERGY: two interfering sine waves blending the two raw
event colors, reading the raw packed colors as in the source. -/
def renderEnergy (lib : LibFuns) (isRGBW : Bool) (n t rawColor rawColor2 : Nat) :
    List Nat :=
  let tQ : ℚ := (t : ℚ) / 500
  let r1 := (rawColor >>> 16) &&& 255
  let g1 := (rawColor >>> 8) &&& 255
  let b1 := rawColor &&& 255
  let r2 := (rawColor2 >>> 16) &&& 255
  let g2 := (rawColor2 >>> 8) &&& 255
  let b2 := rawColor2 &&& 255
  (List.range n).map fun (i : Nat) =>
    let w1 := lib.sinQ ((i : ℚ) * (2 / 10) + tQ)
    let w2 := lib.sinQ ((i : ℚ) * (3 / 10) - tQ * (3 / 2))
    let v := (w1 + w2 + 2) / 4
    makeColor isRGBW (u8cast ((r1 : ℚ) + ((r2 : ℚ) - (r1 : ℚ)) * v))
      (u8cast ((g1 : ℚ) + ((g2 : ℚ) - (g1 : ℚ)) * v))
      (u8cast ((b1 : ℚ) + ((b2 : ℚ) - (b1 : ℚ)) * v))

/-- Renderer of GLITCH: whole-strip random binary choice between the two
colors, reseeded every 50 ms, biased toward the primary. -/
def renderGlitch (lib : LibFuns) (n t c c2 : Nat) : List Nat :=
  if 7 < lib.randQ (t / 50) 0 % 10 then List.replicate n c2
  else List.replicate n c

/-- Renderer of ALTERNATE: even and odd pixels alternate the colors. -/
def renderAlternate (n c c2 : Nat) : List Nat :=
  (List.range n).map fun i => if i % 2 = 0 then c else c2

-- ====================== FRAME RENDERING ======================

/-- Frame-level render state: the pixel buffer, the dirty and off flags,
the last rendered effect type, and a running count of pixel transmissions
(calls of strip show). -/
structure RenderState where
  effect : EffectState
  buffer : List Nat
  stripIsOff : Bool
  frameDirty : Bool
  lastRenderedEffectType : Nat
  txCount : Nat
deriving Repr, DecidableEq

/-- Function renderFrame of the current receiver. First the safety cutoff:
a non-OFF effect with positive duration whose wrapping end time has been
reached is forced to OFF. An OFF effect then unconditionally sets every
pixel black and transmits. Otherwise the effect dispatch runs on the local
elapsed time and the converted colors, marking the frame dirty; an
unrecognized effect type clears the strip only if it was not already
off. -/
def renderFrame (lib : LibFuns) (isRGBW : Bool) (numPixels t : Nat)
    (rs : RenderState) : RenderState :=
  let st0 := rs.effect
  let st :=
    if st0.effectType ≠ 0 ∧ 0 < st0.duration ∧
        (st0.startTime + st0.duration) % u32 ≤ t then
      { st0 with effectType := 0, startTime := t, duration := 0 }
    else st0
  if st.effectType = 0 then
    { effect := st, buffer := List.replicate numPixels 0, stripIsOff := true,
      frameDirty := false, lastRenderedEffectType := 0,
      txCount := rs.txCount + 1 }
  else
    let localTime := (u32 + t - st.startTime) % u32
    let c := makeColorFromPacked isRGBW st.color
    let c2 := makeColorFromPacked isRGBW st.color2
    let dispatch : Option (List Nat) :=
      match st.effectType with
      | 1 => some (renderSolid numPixels c)
      | 2 => some (renderCameraFlash isRGBW numPixels localTime c)
      | 3 => some (renderStrobe numPixels localTime c)
      | 4 => some (renderRainbowChaseShow lib st.speed numPixels localTime)
      | 5 => some (renderRainbowHold lib numPixels)
      | 9 => some (renderWipe numPixels localTime st.duration c)
      | 6 => some (renderChase st.speed st.width numPixels localTime c)
      | 10 => some (renderScanner lib st.speed st.width numPixels localTime c)
      | 11 => some (renderMeteor st.speed st.width numPixels localTime c)
      | 17 => some (renderBreathe lib st.speed numPixels localTime c)
      | 13 => some (renderHeartbeat lib numPixels localTime c)
      | 16 => some (renderSparkle lib isRGBW numPixels localTime c)
      | 12 => some (renderFire lib isRGBW numPixels localTime)
      | 15 => some (renderEnergy lib isRGBW numPixels localTime st.color
          st.color2)
      | 14 => some (renderGlitch lib numPixels localTime c c2)
      | 18 => some (renderAlternate numPixels c c2)
      | _ => none
    match dispatch with
    | some buf =>
        { effect := st, buffer := buf, stripIsOff := false, frameDirty := true,
          lastRenderedEffectType := st.effectType, txCount := rs.txCount }
    | none =>
        if rs.stripIsOff then
          { rs with effect := st, lastRenderedEffectType := st.effectType }
        else
          { effect := st, buffer := List.replicate numPixels 0,
            stripIsOff := true, frameDirty := true,
            lastRenderedEffectType := st.effectType, txCount := rs.txCount }

/-- C3 (amended): for every renderer invocation in which the currently
selected effect is not OFF, has positive duration, and the show time has
reached or passed its absolute end time, renderFrame forces the effect to
OFF and performs an unconditional full-buffer clear and transmit,
regardless of whether the strip was already recorded as off (the code
guard requires a positive duration; a zero-duration non-OFF state, which
the Scheduler never produces, is rendered without the cutoff). -/
theorem C3_render_cutoff (lib : LibFuns) (isRGBW : Bool) (numPixels t : Nat)
    (rs : RenderState) (h1 : rs.effect.effectType ≠ 0)
    (h2 : 0 < rs.effect.duration)
    (hwf : rs.effect.startTime + rs.effect.duration < u32)
    (h3 : rs.effect.startTime + rs.effect.duration ≤ t) :
    renderFrame lib isRGBW numPixels t rs =
      { effect :=
          { rs.effect with effectType := 0, startTime := t, duration := 0 },
        buffer := List.replicate numPixels 0, stripIsOff := true,
        frameDirty := false, lastRenderedEffectType := 0,
        txCount := rs.txCount + 1 } := by
  have hcond : rs.effect.effectType ≠ 0 ∧ 0 < rs.effect.duration ∧
      (rs.effect.startTime + rs.effect.duration) % u32 ≤ t :=
    ⟨h1, h2, by rw [Nat.mod_eq_of_lt hwf]; exact h3⟩
  simp only [renderFrame, if_pos hcond]
  simp

/-- Demo effect state for the C3 witness: SOLID over window 1000 to 1500. -/
def wCutoffEffect : EffectState :=
  { effectType := 1, startTime := 1000, duration := 500, color := 16711680, color2 := 0, speed := 0, width := 0 }

/-- Demo render state for the C3 witness: the SOLID effect above with the
strip currently lit. -/
def wRenderState : RenderState :=
  { effect := wCutoffEffect,
    buffer := [7, 7, 7], stripIsOff := false, frameDirty := false,
    lastRenderedEffectType := 1, txCount := 5 }

theorem C3_render_cutoff_witness :
    renderFrame lib0 false 3 1500 wRenderState =
      { effect := { effectType := 0, startTime := 1500, duration := 0, color := 16711680, color2 := 0, speed := 0, width := 0 },
        buffer := [0, 0, 0], stripIsOff := true, frameDirty := false,
        lastRenderedEffectType := 0, txCount := 6 } := by
  have h := C3_render_cutoff lib0 false 3 1500 wRenderState (by decide)
    (by decide) (by decide) (by decide)
  rw [h]
  decide

/-- Demo render state for the C3 counterexample: a SOLID effect recorded
with duration 0 whose start has long passed. -/
def cRenderState : RenderState :=
  { effect := { effectType := 1, startTime := 0, duration := 0, color := 16711680, color2 := 0, speed := 0, width := 0 },
    buffer := [0, 0, 0], stripIsOff := false, frameDirty := false,
    lastRenderedEffectType := 255, txCount := 0 }

/-- Counterexample to C3 as stated: with a non-OFF selected effect whose
absolute end time (start plus duration, here 0 plus 0) has passed, the
renderer does not force OFF; the duration-positive guard fails, the effect
stays SOLID, and the buffer is filled with the color instead of being
cleared. -/
theorem C3_render_cutoff_counterexample :
    cRenderState.effect.effectType ≠ 0 ∧
    cRenderState.effect.startTime + cRenderState.effect.duration ≤ 100 ∧
    (renderFrame lib0 false 3 100 cRenderState).effect.effectType = 1 ∧
    (renderFrame lib0 false 3 100 cRenderState).buffer =
      [16711680, 16711680, 16711680] := by decide

-- ====================== SHOW END TIME ========================

/-- Specification-side show end time: the maximum of start plus duration
over exactly the events whose target bitmask includes this prop. -/
def specShowEnd (propID : Nat) (events : List ShowEvent) : Nat :=
  ((events.filter fun e => maskHasProp propID e.targetMask).map
      fun e => e.startTime + e.duration).foldl max 0

theorem readEventsV3_endTime (bytes : List Nat) (propID : Nat) :
    ∀ n pos acc, (readEventsV3 bytes propID pos acc n).2 =
      ((readEventsV3 bytes propID pos acc n).1.filter
          (fun e => maskHasProp propID e.targetMask)).foldl
        (fun m e => max m ((e.startTime + e.duration) % u32)) acc := by
  intro n
  induction n with
  | zero => intro pos acc; simp [readEventsV3]
  | succ m ih =>
      intro pos acc
      by_cases hb : bytes.length < pos + 48
      · simp [readEventsV3, hb]
      · by_cases hm : maskHasProp propID (parseShowEvent bytes pos).targetMask
        · simp only [readEventsV3, if_neg hb, if_pos hm, List.filter_cons,
            hm, if_true, List.foldl_cons]
          exact ih (pos + 48)
            (max acc (((parseShowEvent bytes pos).startTime +
              (parseShowEvent bytes pos).duration) % u32))
        · have hm' : maskHasProp propID (parseShowEvent bytes pos).targetMask =
            false := Bool.eq_false_iff.mpr hm
          simp only [readEventsV3, if_neg hb, hm', Bool.false_eq_true,
            if_false, List.filter_cons]
          exact ih (pos + 48) acc

theorem foldl_max_mod_eq :
    ∀ (l : List ShowEvent),
      (∀ e ∈ l, e.startTime + e.duration < u32) → ∀ acc,
      l.foldl (fun m e => max m ((e.startTime + e.duration) % u32)) acc =
        (l.map fun e => e.startTime + e.duration).foldl max acc := by
  intro l
  induction l with
  | nil => intro _ acc; rfl
  | cons a l ih =>
      intro hwf acc
      simp only [List.foldl_cons, List.map_cons]
      rw [Nat.mod_eq_of_lt (hwf a (List.mem_cons_self a l))]
      exact ih (fun e he => hwf e (List.mem_cons_of_mem a he)) _

-- ====================== MAIN LOOP ============================

/-- Device state threaded through one iteration of loop: the runtime
clock, the mode flag, the loaded schedule with its per-prop end time, and
the frame-render state. The button-driven setup path and the test-mode
animation, which live outside the show engine, are not expanded. -/
structure DeviceState where
  currentShowTime : Nat
  isShowPlaying : Bool
  inTestMode : Bool
  showEndTime : Nat
  showSchedule : List ShowEvent
  numPixels : Nat
  rs : RenderState
deriving Repr, DecidableEq

/-- Which branch of the playing logic one loop iteration took. -/
inductive LoopAction where
  | radioFailed
  | testMode
  | showComplete
  | scheduled
  | standby
deriving Repr, DecidableEq

/-- Function showIfDirty: transmit the buffer once if the frame is dirty
and clear the dirty flag. -/
def showIfDirty (rs : RenderState) : RenderState :=
  if rs.frameDirty then
    { rs with txCount := rs.txCount + 1, frameDirty := false }
  else rs

/-- Clear-and-transmit of the show-complete and standby branches of loop:
every pixel set black, one transmission, strip recorded off, dirty flag
cleared, last rendered effect recorded as OFF. -/
def clearAllAndShow (rs : RenderState) (numPixels : Nat) : RenderState :=
  { rs with
    buffer := List.replicate numPixels 0, stripIsOff := true,
    frameDirty := false, lastRenderedEffectType := 0,
    txCount := rs.txCount + 1 }

/-- Packet receipt in loop: the master time is written to the local show
time directly and the play flag is set from the packet state byte. -/
def applyPacket (pkt : Option RadioPacket) (d : DeviceState) : DeviceState :=
  match pkt with
  | some p =>
      { d with
        currentShowTime := p.masterTime % u32,
        isShowPlaying := p.state == 1 }
  | none => d

/-- One iteration of the show portion of loop: packet handling, then the
test-mode branch, then, when playing, the local clock advance (only when
no packet arrived this iteration), the show-complete cutoff (only when the
stored show end time is positive), or the scheduler plus renderer;
when not playing, the standby branch clears and transmits every pixel. -/
def loopStep (lib : LibFuns) (radioInit isRGBW : Bool) (propID : Nat)
    (pkt : Option RadioPacket) (delta : Nat) (d : DeviceState) :
    DeviceState × LoopAction :=
  if radioInit = false then (d, LoopAction.radioFailed)
  else
    let d1 := applyPacket pkt d
    if d1.inTestMode then
      ({ d1 with rs := showIfDirty d1.rs }, LoopAction.testMode)
    else if d1.isShowPlaying then
      let d2 :=
        if pkt.isSome then d1
        else { d1 with
          currentShowTime := (d1.currentShowTime + delta) % u32 }
      if 0 < d2.showEndTime ∧ d2.showEndTime < d2.currentShowTime then
        ({ d2 with rs := showIfDirty (clearAllAndShow d2.rs d2.numPixels) },
          LoopAction.showComplete)
      else
        let eff := checkSchedule propID d2.currentShowTime d2.showSchedule
          d2.rs.effect
        let rs2 := renderFrame lib isRGBW d2.numPixels d2.currentShowTime
          { d2.rs with effect := eff }
        ({ d2 with rs := showIfDirty rs2 }, LoopAction.scheduled)
    else
      ({ d1 with rs := showIfDirty (clearAllAndShow d1.rs d1.numPixels) },
        LoopAction.standby)

/-- C4: in an iteration that receives a packet, the show time is set to
the packet master time exactly, with no additional wall-clock advance, and
the play flag follows the packet; with no packet, the show time advances
by the measured delta exactly when the play flag is set, and does not
advance at all when not playing. Stated for the normal operating mode:
radio initialized and test mode off. -/
theorem C4_clock_sync (lib : LibFuns) (isRGBW : Bool) (propID delta : Nat)
    (d : DeviceState) (htest : d.inTestMode = false) :
    (∀ p : RadioPacket, p.masterTime < u32 →
      (loopStep lib true isRGBW propID (some p) delta d).1.currentShowTime =
          p.masterTime ∧
        (loopStep lib true isRGBW propID (some p) delta d).1.isShowPlaying =
          (p.state == 1)) ∧
    (d.isShowPlaying = true → d.currentShowTime + delta < u32 →
      (loopStep lib true isRGBW propID none delta d).1.currentShowTime =
        d.currentShowTime + delta) ∧
    (d.isShowPlaying = false →
      (loopStep lib true isRGBW propID none delta d).1.currentShowTime =
        d.currentShowTime) := by
  refine ⟨?_, ?_, ?_⟩
  · intro p hm
    simp only [loopStep, applyPacket, if_neg (by decide : ¬ true = false)]
    simp only [htest, Bool.false_eq_true, if_false]
    rw [Nat.mod_eq_of_lt hm]
    by_cases hplay : p.state == 1
    · simp only [hplay, if_true, Option.isSome_some, if_true]
      by_cases hend : 0 < d.showEndTime ∧ d.showEndTime < p.masterTime
      · simp [hend]
      · simp [hend]
    · have hplay' : (p.state == 1) = false := Bool.eq_false_iff.mpr hplay
      simp [hplay']
  · intro hplay hlt
    simp only [loopStep, applyPacket, if_neg (by decide : ¬ true = false)]
    simp only [htest, Bool.false_eq_true, if_false, hplay, if_true,
      Option.isSome_none, Bool.false_eq_true, if_false]
    rw [Nat.mod_eq_of_lt hlt]
    by_cases hend : 0 < d.showEndTime ∧
        d.showEndTime < d.currentShowTime + delta
    · simp [hend]
    · simp [hend]
  · intro hplay
    simp only [loopStep, applyPacket, if_neg (by decide : ¬ true = false)]
    simp [htest, hplay]

/-- Demo device state for the C4 witness: playing at show time 5000. -/
def wDeviceState4 : DeviceState :=
  { currentShowTime := 5000, isShowPlaying := true, inTestMode := false,
    showEndTime := 0, showSchedule := [], numPixels := 2,
    rs := { effect := effectState0, buffer := [0, 0], stripIsOff := true, frameDirty := false, lastRenderedEffectType := 0, txCount := 0 } }

/-- Demo timecode packet for the C4 witness. -/
def wPacket : RadioPacket :=
  { packetCounter := 9, masterTime := 7000, state := 1, hopCount := 0,
    sourceID := 0 }

theorem C4_clock_sync_witness :
    (loopStep lib0 true false 1 (some wPacket) 50 wDeviceState4).1.currentShowTime = 7000 ∧
    (loopStep lib0 true false 1 none 50 wDeviceState4).1.currentShowTime = 5050 := by
  have h := C4_clock_sync lib0 false 1 50 wDeviceState4 (by decide)
  exact ⟨(h.1 wPacket (by decide)).1, h.2.1 (by decide) (by decide)⟩

/-- C5 (amended): at load time the show end time is the maximum of start
plus duration over only the successfully-read events whose target bitmask
includes this prop; and in every subsequent playing loop iteration whose
show time is strictly greater than that value, provided the value is
positive, the device forces every pixel off with a transmission and takes
the show-complete branch, skipping the Scheduler and the effect Renderer
(when no event targets this prop the stored end time is 0, the guard
fails, and the normal scheduling path runs instead). -/
theorem C5_show_complete :
    (∀ bytes propID st,
      (loadShowFromFlash (some bytes) propID st).1 = true →
      (∀ e ∈ (loadShowFromFlash (some bytes) propID st).2.showSchedule,
        e.startTime + e.duration < u32) →
      (loadShowFromFlash (some bytes) propID st).2.showEndTime =
        specShowEnd propID
          (loadShowFromFlash (some bytes) propID st).2.showSchedule) ∧
    (∀ (lib : LibFuns) (isRGBW : Bool) (propID delta : Nat)
      (d : DeviceState), d.inTestMode = false →
      d.isShowPlaying = true → d.currentShowTime + delta < u32 →
      0 < d.showEndTime → d.showEndTime < d.currentShowTime + delta →
      (loopStep lib true isRGBW propID none delta d).2 =
          LoopAction.showComplete ∧
      (loopStep lib true isRGBW propID none delta d).1.rs.buffer =
        List.replicate d.numPixels 0 ∧
      (loopStep lib true isRGBW propID none delta d).1.rs.txCount =
        d.rs.txCount + 1) := by
  constructor
  · intro bytes propID st hT hwf
    rw [loadShowFromFlash_true_iff] at hT
    obtain ⟨k1, k2, k3, k4⟩ := hT
    rw [loadShowFromFlash_success_fields bytes propID st k1 k2 k3 k4] at hwf ⊢
    simp only at hwf ⊢
    rw [readEventsV3_endTime bytes propID (min (le16 bytes 6) 512) 1808 0]
    unfold specShowEnd
    exact foldl_max_mod_eq _
      (fun e he => hwf e (List.mem_of_mem_filter he)) 0
  · intro lib isRGBW propID delta d htest hplay hlt hpos hend
    have hcond : 0 < d.showEndTime ∧
        d.showEndTime < (d.currentShowTime + delta) % u32 := by
      rw [Nat.mod_eq_of_lt hlt]; exact ⟨hpos, hend⟩
    simp only [loopStep, applyPacket, if_neg (by decide : ¬ true = false),
      htest, Bool.false_eq_true, if_false, hplay, if_true,
      Option.isSome_none]
    rw [if_pos hcond]
    refine ⟨rfl, ?_, ?_⟩ <;> simp [showIfDirty, clearAllAndShow]

/-- Demo event targeting only prop 2, for the C5 counterexample. -/
def cEvent : ShowEvent :=
  { startTime := 1000, duration := 500, effectType := 1, speed := 0,
    width := 0, reserved := 0, color := 255, color2 := 0,
    targetMask := [2, 0, 0, 0, 0, 0, 0] }

/-- All-off render state used in states of loop theorems. -/
def cRs : RenderState :=
  { effect := effectState0, buffer := [0, 0, 0], stripIsOff := true,
    frameDirty := false, lastRenderedEffectType := 0, txCount := 0 }

/-- Device state of prop 1 whose loaded schedule holds one event that does
not target it, so the computed per-prop show end time is 0. -/
def cDeviceState : DeviceState :=
  { currentShowTime := 0, isShowPlaying := true, inTestMode := false,
    showEndTime := specShowEnd 1 [cEvent], showSchedule := [cEvent],
    numPixels := 3, rs := cRs }

/-- Counterexample to C5 as stated: with no event targeting this prop the
computed end time is 0; at show time 5, strictly greater than 0, the
playing iteration still runs the Scheduler and the Renderer (action
scheduled) instead of taking the forced show-complete branch. -/
theorem C5_show_complete_counterexample :
    specShowEnd 1 [cEvent] = 0 ∧
    (loopStep lib0 true false 1 none 5 cDeviceState).1.currentShowTime = 5 ∧
    cDeviceState.showEndTime <
      (loopStep lib0 true false 1 none 5 cDeviceState).1.currentShowTime ∧
    (loopStep lib0 true false 1 none 5 cDeviceState).2 =
      LoopAction.scheduled := by decide

/-- Render state with a lit strip for the C5 witness. -/
def wRs5 : RenderState :=
  { effect := wCutoffEffect, buffer := [3, 3], stripIsOff := false,
    frameDirty := false, lastRenderedEffectType := 1, txCount := 4 }

/-- Device state just before its stored show end time of 77, playing. -/
def wDeviceState5 : DeviceState :=
  { currentShowTime := 70, isShowPlaying := true, inTestMode := false,
    showEndTime := 77, showSchedule := [wEvent1], numPixels := 2,
    rs := wRs5 }

theorem C5_show_complete_witness :
    (loadShowFromFlash (some wFileV3) 1 wShowState).2.showEndTime =
      specShowEnd 1
        (loadShowFromFlash (some wFileV3) 1 wShowState).2.showSchedule ∧
    (loopStep lib0 true false 1 none 10 wDeviceState5).2 =
        LoopAction.showComplete ∧
    (loopStep lib0 true false 1 none 10 wDeviceState5).1.rs.buffer =
      [0, 0] := by
  have h := C5_show_complete
  have hb := h.2 lib0 false 1 10 wDeviceState5 (by decide) (by decide)
    (by decide) (by decide) (by decide)
  refine ⟨h.1 wFileV3 1 wShowState (by decide) (by decide), hb.1, ?_⟩
  rw [hb.2.1]
  decide

-- ====================== LEGACY RENDERERS =====================

/-- Legacy CHASE: fixed speed 2, position from the wrapping uint32 product
of time and 2 modulo 1000, band width the integer division of the pixel
count by 10 (0 for strips shorter than 10 pixels). -/
def legacyRenderChase (n t c : Nat) : List Nat :=
  let pos : ℚ := ((t * 2 % u32 % 1000 : Nat) : ℚ) / 1000
  chaseBuf (qtrunc (pos * n)) ((n : Int) / 10) n c

/-- Legacy SCANNER: fixed speed 2, fixed distance limit 5. -/
def legacyRenderScanner (lib : LibFuns) (n t c : Nat) : List Nat :=
  let tQ : ℚ := (t : ℚ) / 1000 * 2
  let pos : ℚ := (lib.sinQ tQ + 1) / 2
  scannerBuf (qtrunc (pos * ((n - 1 : Nat) : ℚ))) 5 n c

/-- Legacy METEOR: fixed speed 2, tail length the integer division of the
pixel count by 3. -/
def legacyRenderMeteor (n t c : Nat) : List Nat :=
  let tFrac : ℚ := ((t * 2 % u32 % 1000 : Nat) : ℚ) / 1000
  meteorBuf (qtrunc (tFrac * n)) ((n : Int) / 3) n c

-- ====================== FLOOR ARITHMETIC =====================

theorem qtrunc_of_nonneg (q : ℚ) (h : 0 ≤ q) : qtrunc q = ⌊q⌋ := if_pos h

theorem intFloor_eq_natFloor (q : ℚ) (h : 0 ≤ q) : ⌊q⌋ = (⌊q⌋₊ : ℤ) :=
  (Int.toNat_of_nonneg (Int.floor_nonneg.mpr h)) ▸ by rw [Int.floor_toNat]

theorem qtrunc_natCast_div (a b : Nat) :
    qtrunc ((a : ℚ) / (b : ℚ)) = ((a / b : Nat) : ℤ) := by
  have hnn : (0 : ℚ) ≤ (a : ℚ) / (b : ℚ) := by positivity
  rw [qtrunc_of_nonneg _ hnn, intFloor_eq_natFloor _ hnn, Nat.floor_div_nat,
    Nat.floor_natCast]

theorem fract_nat_div (t b : Nat) (hb : 0 < b) :
    (t : ℚ) / b - ⌊(t : ℚ) / b⌋ = ((t % b : Nat) : ℚ) / b := by
  have hbq : ((b : ℚ)) ≠ 0 := Nat.cast_ne_zero.mpr (by omega)
  have hsplit : (t : ℚ) = (b : ℚ) * ((t / b : Nat) : ℚ) + ((t % b : Nat) : ℚ) := by
    exact_mod_cast congrArg (fun k : Nat => (k : ℚ)) (Nat.div_add_mod t b).symm
  have hdiv : (t : ℚ) / b = ((t / b : Nat) : ℚ) + ((t % b : Nat) : ℚ) / b := by
    rw [hsplit]; field_simp; ring
  have hfr0 : (0 : ℚ) ≤ ((t % b : Nat) : ℚ) / b := by positivity
  have hfr1 : ((t % b : Nat) : ℚ) / b < 1 := by
    rw [div_lt_one (by exact_mod_cast hb)]
    exact_mod_cast Nat.mod_lt t hb
  have hadd : ⌊((t / b : Nat) : ℚ) + ((t % b : Nat) : ℚ) / b⌋ =
      ((t / b : Nat) : ℤ) + ⌊((t % b : Nat) : ℚ) / b⌋ := by
    have h := Int.floor_int_add ((t / b : Nat) : ℤ) (((t % b : Nat) : ℚ) / b)
    rwa [Int.cast_natCast] at h
  have hfl : ⌊(t : ℚ) / b⌋ = ((t / b : Nat) : ℤ) := by
    rw [hdiv, hadd, Int.floor_eq_zero_iff.mpr ⟨hfr0, hfr1⟩]
    simp
  rw [hfl, hdiv, Int.cast_natCast]
  ring

theorem chase_center_eq (n t : Nat) (ht : t * 2 < u32) :
    qtrunc (((t : ℚ) / 1000 * 2 - ⌊(t : ℚ) / 1000 * 2⌋) * n) =
      qtrunc (((t * 2 % u32 % 1000 : Nat) : ℚ) / 1000 * n) := by
  have h1 : (t : ℚ) / 1000 * 2 = (t : ℚ) / 500 := by ring
  have h2 : t * 2 % u32 = t * 2 := Nat.mod_eq_of_lt ht
  have h3 : t * 2 % 1000 = 2 * (t % 500) := by omega
  have hf : (t : ℚ) / 500 - ⌊(t : ℚ) / 500⌋ = ((t % 500 : Nat) : ℚ) / 500 := by
    exact_mod_cast fract_nat_div t 500 (by norm_num)
  rw [h1, hf, h2, h3]
  congr 1
  push_cast
  ring

theorem chase_width_eq (n : Nat) (hn : 10 ≤ n) :
    max 1 (qtrunc ((n : ℚ) * (1 / 10))) = (n : Int) / 10 := by
  have h1 : (n : ℚ) * (1 / 10) = (n : ℚ) / ((10 : Nat) : ℚ) := by
    push_cast; ring
  rw [h1, qtrunc_natCast_div n 10]
  have h2 : (1 : ℤ) ≤ ((n / 10 : Nat) : ℤ) := by
    have : 1 ≤ n / 10 := (Nat.one_le_div_iff (by norm_num)).mpr hn
    exact_mod_cast this
  rw [max_eq_right h2]
  exact_mod_cast Int.natCast_div n 10

/-- C6 (amended): with speed and width bytes of 0 the current firmware
reproduces the legacy SCANNER exactly for every pixel count, elapsed time
and sine model, and the legacy CHASE exactly for every strip of at least
10 pixels and every elapsed time below the uint32 wrap of the legacy
position product; the zero-byte CHASE band width is clamped to at least
one pixel where the legacy band degenerates to zero below 10 pixels, and
the zero-byte METEOR tail length (floor of 33 hundredths of the pixel
count, at least 1) deviates from the legacy tail (pixel count over 3) for
some pixel counts. -/
theorem C6_zero_byte_defaults :
    (∀ (lib : LibFuns) (n t c : Nat),
      renderScanner lib 0 0 n t c = legacyRenderScanner lib n t c) ∧
    (∀ n t c : Nat, 10 ≤ n → t * 2 < u32 →
      renderChase 0 0 n t c = legacyRenderChase n t c) ∧
    (∀ n t c : Nat, ∃ center bandWidth : Int,
      renderChase 0 0 n t c = chaseBuf center bandWidth n c ∧
      1 ≤ bandWidth) ∧
    (∀ n t c : Nat, ∃ head tailLen : Int,
      renderMeteor 0 0 n t c = meteorBuf head tailLen n c ∧
      1 ≤ tailLen) := by
  refine ⟨?_, ?_, ?_, ?_⟩
  · intro lib n t c
    unfold renderScanner legacyRenderScanner
    simp only [reduceIte]
    norm_num
  · intro n t c hn ht
    unfold renderChase legacyRenderChase
    simp only [reduceIte]
    rw [chase_center_eq n t ht, chase_width_eq n hn]
  · intro n t c
    unfold renderChase
    simp only [reduceIte]
    exact ⟨_, _, rfl, le_max_left _ _⟩
  · intro n t c
    unfold renderMeteor
    simp only [reduceIte]
    exact ⟨_, _, rfl, le_max_left _ _⟩

/-- Counterexample to C6 as stated: at 5 pixels the zero-byte CHASE of the
current firmware lights a pixel while the legacy band width 5 over 10 is
zero and lights nothing; at 99 pixels and 167 ms the zero-byte METEOR tail
is 32 while the legacy tail is 33, so pixel 1 differs. -/
theorem C6_zero_byte_defaults_counterexample :
    renderChase 0 0 5 0 16711680 ≠ legacyRenderChase 5 0 16711680 ∧
    renderMeteor 0 0 99 167 16711680 ≠ legacyRenderMeteor 99 167 16711680 := by
  constructor
  · intro h
    have hcur : (renderChase 0 0 5 0 16711680).getD 0 0 = 16711680 := by
      unfold renderChase chaseBuf
      rw [getD_range_map _ 5 0 (by norm_num)]
      norm_num [qtrunc]
    have hleg : (legacyRenderChase 5 0 16711680).getD 0 0 = 0 := by
      unfold legacyRenderChase chaseBuf
      rw [getD_range_map _ 5 0 (by norm_num)]
      norm_num [qtrunc, u32]
    have hc := (hcur.symm.trans
      (congrArg (fun l => l.getD 0 0) h)).trans hleg
    exact absurd hc (by norm_num)
  · intro h
    have hcur : (renderMeteor 0 0 99 167 16711680).getD 1 0 = 0 := by
      unfold renderMeteor meteorBuf
      rw [getD_range_map _ 99 1 (by norm_num)]
      norm_num [qtrunc]
    have hleg : (legacyRenderMeteor 99 167 16711680).getD 1 0 = 458752 := by
      unfold legacyRenderMeteor meteorBuf
      rw [getD_range_map _ 99 1 (by norm_num)]
      norm_num [qtrunc, u32, dimColor, qtruncNat, stripColor3,
        (by decide : ((16711680 >>> 16) &&& 255 : Nat) = 255),
        (by decide : ((16711680 >>> 8) &&& 255 : Nat) = 0),
        (by decide : ((16711680 : Nat) &&& 255) = 0),
        (by decide : (Int.toNat 7 <<< 16 : Nat) = 458752)]
    have hc := (hcur.symm.trans
      (congrArg (fun l => l.getD 1 0) h)).trans hleg
    exact absurd hc (by norm_num)

theorem C6_zero_byte_defaults_witness :
    renderScanner lib0 0 0 12 100 255 = legacyRenderScanner lib0 12 100 255 ∧
    renderChase 0 0 12 100 255 = legacyRenderChase 12 100 255 :=
  ⟨C6_zero_byte_defaults.1 lib0 12 100 255,
    C6_zero_byte_defaults.2.1 12 100 255 (by decide) (by decide)⟩
